import Mathlib

/-
Shallow embedding of the coffee-bean grading pipeline of the api-platform
repository (grain_classification bounded context), over exact rational
arithmetic.  The embedded functions follow:
  src/grain_classification/domain/model/valueobjetcs/quality_models.py
  src/grain_classification/domain/services/grading_service.py
  src/grain_classification/infrastructure/cv_service.py
  src/grain_classification/infrastructure/ml_predictor_service.py
-/

namespace GrainGrading

/-- A dynamically typed Python value, as far as the feature dictionaries
need it: the grading service tests the value stored under the key
has_cracks for Python truthiness, and the CV service stores a string
there (str(bool)). -/
inductive PyVal where
  | pfloat (q : ℚ)
  | pstr (s : String)
  | pbool (b : Bool)
deriving DecidableEq

/-- Python truthiness of a value: a string is truthy iff nonempty, a
float iff nonzero, a bool iff True. -/
def truthy : PyVal → Bool
  | .pfloat q => q != 0
  | .pstr s => s != ""
  | .pbool b => b

/-- Round a rational to the nearest integer, ties to even, as the Python
builtin round does. -/
def roundHalfEven (q : ℚ) : ℤ :=
  if q - ⌊q⌋ < 1/2 then ⌊q⌋
  else if 1/2 < q - ⌊q⌋ then ⌊q⌋ + 1
  else if ⌊q⌋ % 2 = 0 then ⌊q⌋ else ⌊q⌋ + 1

/-- Python round(x, 3): round to three decimal places. -/
def round3 (q : ℚ) : ℚ := (roundHalfEven (q * 1000) : ℚ) / 1000

/-- quality_models.QUALITY_CATEGORIES. -/
def QUALITY_CATEGORIES : List String := ["Specialty", "Premium", "A", "B", "C"]

/-- quality_models.QUALITY_THRESHOLDS, in the insertion order of the
Python dict. -/
def QUALITY_THRESHOLDS : List (String × ℚ) :=
  [("Specialty", 9/10), ("Premium", 8/10), ("A", 7/10), ("B", 6/10), ("C", 0)]

/-- The loop body of QualityGradingService._determine_quality_category:
walk the threshold list in order and return the first category whose
threshold the score clears. -/
def walk_thresholds (final_score : ℚ) : List (String × ℚ) → Option String
  | [] => none
  | p :: rest => if p.2 ≤ final_score then some p.1 else walk_thresholds final_score rest

/-- QualityGradingService._determine_quality_category: first category of
QUALITY_THRESHOLDS whose threshold is at most the score, falling back to
C when none matches. -/
def determine_quality_category (final_score : ℚ) : String :=
  (walk_thresholds final_score QUALITY_THRESHOLDS).getD "C"

/-- Rank of a category in the fixed quality ordering
Specialty > Premium > A > B > C (larger is better). -/
def category_rank (c : String) : ℕ :=
  if c = "Specialty" then 4
  else if c = "Premium" then 3
  else if c = "A" then 2
  else if c = "B" then 1
  else 0

/-- The features dictionary consumed by
QualityGradingService._evaluate_shape_quality: the two keys it reads,
each possibly absent.  The circularity value is a float; the has_cracks
value is an arbitrary Python value tested for truthiness. -/
structure FeatureDict where
  circularity : Option ℚ
  has_cracks : Option PyVal
deriving DecidableEq

/-- The body of QualityGradingService._evaluate_shape_quality before the
final clamp: start at 1.0, subtract 0.3 when circularity (default 0.5)
is below 0.7, subtract 0.2 when the has_cracks value (default False) is
truthy. -/
def shape_quality_unclamped (features : FeatureDict) : ℚ :=
  let s1 : ℚ := 1
  let s2 := if features.circularity.getD (1/2) < 7/10 then s1 - 3/10 else s1
  if truthy (features.has_cracks.getD (.pbool false)) then s2 - 2/10 else s2

/-- QualityGradingService._evaluate_shape_quality: the penalised score
clamped below by 0.0. -/
def evaluate_shape_quality (features : FeatureDict) : ℚ :=
  max 0 (shape_quality_unclamped features)

/-- The dictionary returned by
QualityGradingService.calculate_final_quality. -/
structure QualityAssessment where
  quality_category : String
  final_score : ℚ
  base_quality_score : ℚ
  shape_score : ℚ
  source_category : String
deriving DecidableEq

/-- QualityGradingService.calculate_final_quality: fuse the colour score
with the shape score (70/30), categorise the unrounded fusion, report
the fusion rounded to three decimals. -/
def calculate_final_quality (base_score : ℚ) (source_category : String)
    (features : FeatureDict) : QualityAssessment :=
  let shape_score := evaluate_shape_quality features
  let final_score := base_score * (7/10) + shape_score * (3/10)
  { quality_category := determine_quality_category final_score
    final_score := round3 final_score
    base_quality_score := base_score
    shape_score := shape_score
    source_category := source_category }

/-- The two fields of a bean assessment dictionary read by
QualityGradingService.generate_batch_report. -/
structure BeanAssessment where
  quality_category : String
  final_score : ℚ
deriving DecidableEq

/-- The dictionary returned by
QualityGradingService.generate_batch_report: either the error dictionary
for an empty lot or the report dictionary. -/
inductive BatchReport where
  | error (msg : String)
  | report (total_beans_analyzed : ℕ)
      (category_distribution : List (String × ℕ))
      (average_quality_score : ℚ) (lot_quality : String)
deriving DecidableEq

/-- One iteration of the counting loop of generate_batch_report: the
count of the bean category is incremented when that key is present in
the dictionary, and nothing happens otherwise. -/
def category_count_step (acc : List (String × ℕ)) (bean : BeanAssessment) :
    List (String × ℕ) :=
  acc.map (fun p => if p.1 = bean.quality_category then (p.1, p.2 + 1) else p)

/-- QualityGradingService.generate_batch_report: error dictionary on an
empty lot; otherwise zero-filled category counts over
QUALITY_CATEGORIES, the mean final score rounded to three decimals, and
the lot category determined from the unrounded mean. -/
def generate_batch_report (bean_assessments : List BeanAssessment) : BatchReport :=
  if bean_assessments.length = 0 then .error "No se analizaron granos"
  else
    let category_count := bean_assessments.foldl category_count_step
      (QUALITY_CATEGORIES.map (fun c => (c, 0)))
    let avg_score := (bean_assessments.map BeanAssessment.final_score).sum /
      (bean_assessments.length : ℚ)
    .report bean_assessments.length category_count (round3 avg_score)
      (determine_quality_category avg_score)

/-- The circularity expression of CVService.extract_all_features, with
the float constant np.pi abstracted as a rational parameter. -/
def circularity (pi area perimeter : ℚ) : ℚ :=
  if perimeter > 0 then 4 * pi * area / perimeter ^ 2 else 0

/-- The edge-density expression of CVService.extract_all_features: the
Canny edge map is a list of 8-bit pixel values, and the density is their
sum over 255 times the pixel count, or 0 for an empty map. -/
def edge_density (edges : List ℕ) : ℚ :=
  if 0 < edges.length then (edges.sum : ℚ) / (255 * edges.length) else 0

/-- The features dictionary built by CVService.extract_all_features.
The has_cracks entry holds str(edge_density > 0.05), a string. -/
structure RawFeatures where
  area : ℚ
  perimeter : ℚ
  circularity : ℚ
  has_cracks : PyVal
deriving DecidableEq

/-- CVService.extract_all_features: shape metrics from the contour, and
the crack flag from the edge density of the crop, stored with str(). -/
def extract_all_features (pi area perimeter : ℚ) (edges : List ℕ) : RawFeatures :=
  { area := area
    perimeter := perimeter
    circularity := circularity pi area perimeter
    has_cracks := .pstr (if edge_density edges > 1/20 then "True" else "False") }

/-- View of the extracted features as the dictionary read by the grading
service: both keys present, has_cracks holding the string value. -/
def RawFeatures.toDict (f : RawFeatures) : FeatureDict :=
  { circularity := some f.circularity, has_cracks := some f.has_cracks }

/-- A contour as far as the segmentation filter observes it: its
computed enclosed area. -/
structure Contour where
  area : ℚ
deriving DecidableEq

/-- The filtering loop of CVService.segment_beans: keep exactly the
contours whose area exceeds 500. -/
def segment_beans (contours : List Contour) : List Contour :=
  contours.filter (fun c => c.area > 500)

/-- quality_models.CNN_COLOR_CLASSES. -/
def CNN_COLOR_CLASSES : List String := ["Dark", "Green", "Light", "Medium"]

/-- MLPredictorService.predict_color_percentages.  The loaded model is
an Option (None when loading failed); inference either throws (Except
error, caught and mapped to None) or yields one raw score per class; an
out-of-range index raises inside the try block and is likewise caught.
Raw scores are rounded to three decimals, then renormalised to sum to
100 only when their rounded sum is positive. -/
def predict_color_percentages (cnn_model : Option Unit) (color_classes : List String)
    (raw_predictions : Except String (List ℚ)) : Option (List (String × ℚ)) :=
  match cnn_model with
  | none => none
  | some _ =>
    match raw_predictions with
    | .error _ => none
    | .ok raw =>
      if raw.length < color_classes.length then none
      else
        let predictions := (color_classes.zip raw).map (fun p => (p.1, round3 p.2))
        let total_prob := (predictions.map Prod.snd).sum
        if 0 < total_prob then
          some (predictions.map (fun p => (p.1, p.2 / total_prob * 100)))
        else some predictions

end GrainGrading

namespace GrainGrading

/-- Closed form of the threshold walk as a chain of comparisons, in the
order of QUALITY_THRESHOLDS. -/
lemma determine_quality_category_eq (s : ℚ) :
    determine_quality_category s =
      if 9/10 ≤ s then "Specialty"
      else if 8/10 ≤ s then "Premium"
      else if 7/10 ≤ s then "A"
      else if 6/10 ≤ s then "B"
      else "C" := by
  unfold determine_quality_category QUALITY_THRESHOLDS
  simp only [walk_thresholds]
  split_ifs <;> simp_all

lemma determine_at_nine_tenths : determine_quality_category (9/10) = "Specialty" := by
  rw [determine_quality_category_eq]
  norm_num

lemma shape_quality_top (features : FeatureDict)
    (hc : ¬ features.circularity.getD (1/2) < 7/10)
    (hk : truthy (features.has_cracks.getD (.pbool false)) = false) :
    evaluate_shape_quality features = 1 := by
  simp only [evaluate_shape_quality, shape_quality_unclamped, hk]
  rw [if_neg hc, max_eq_right (by norm_num)]
  norm_num

lemma round3_of_ratio (a : ℤ) (q : ℚ) (hf : ⌊q * 1000⌋ = a)
    (hlt : q * 1000 - a < 1/2) : round3 q = (a : ℚ) / 1000 := by
  unfold round3 roundHalfEven
  rw [hf, if_pos hlt]

/-- One step of the counting loop on a keyed list over the fixed
categories only touches the entry of the bean category. -/
lemma category_count_step_map (f : String → ℕ) (b : BeanAssessment) :
    category_count_step (QUALITY_CATEGORIES.map fun c => (c, f c)) b =
      QUALITY_CATEGORIES.map fun c => (c, f c + if c = b.quality_category then 1 else 0) := by
  unfold category_count_step
  rw [List.map_map]
  apply List.map_congr_left
  intro c _
  by_cases h : c = b.quality_category <;> simp [h]

/-- Closed form of the counting loop of generate_batch_report: each
fixed category is paired with the number of beans carrying it. -/
lemma foldl_category_count (beans : List BeanAssessment) (f : String → ℕ) :
    beans.foldl category_count_step (QUALITY_CATEGORIES.map fun c => (c, f c)) =
      QUALITY_CATEGORIES.map
        fun c => (c, f c + beans.countP (fun b => decide (c = b.quality_category))) := by
  induction beans generalizing f with
  | nil => simp
  | cons b rest ih =>
    rw [List.foldl_cons, category_count_step_map, ih]
    apply List.map_congr_left
    intro c _
    have hsplit : rest.countP (fun x => decide (c = x.quality_category)) +
        (if c = b.quality_category then 1 else 0) =
        (b :: rest).countP (fun x => decide (c = x.quality_category)) := by
      rw [List.countP_cons]
      by_cases h : c = b.quality_category <;> simp [h]
    rw [← hsplit]
    by_cases h : c = b.quality_category <;> simp [h] <;> omega

/-- The per-category counts of a lot whose beans all carry one of the
five fixed categories sum to the number of beans. -/
lemma histogram_sum (beans : List BeanAssessment)
    (h : ∀ b ∈ beans, b.quality_category ∈ QUALITY_CATEGORIES) :
    ((QUALITY_CATEGORIES.map
        fun c => (c, beans.countP (fun b => decide (c = b.quality_category)))).map
      Prod.snd).sum = beans.length := by
  rw [List.map_map]
  induction beans with
  | nil => simp [QUALITY_CATEGORIES, Function.comp]
  | cons b rest ih =>
    have hb : b.quality_category ∈ QUALITY_CATEGORIES := h b (List.mem_cons_self b rest)
    have hr : ∀ x ∈ rest, x.quality_category ∈ QUALITY_CATEGORIES :=
      fun x hx => h x (List.mem_cons_of_mem _ hx)
    have ihr := ih hr
    simp only [QUALITY_CATEGORIES, List.map_cons, List.map_nil, List.sum_cons,
      List.sum_nil, List.countP_cons, Function.comp, List.length_cons] at ihr ⊢
    simp only [QUALITY_CATEGORIES, List.mem_cons, List.not_mem_nil, or_false] at hb
    rcases hb with h1 | h1 | h1 | h1 | h1 <;> simp [h1] <;> omega

/-- Linearity of the renormalisation step over a list of scores. -/
lemma sum_map_div_mul (l : List ℚ) (t : ℚ) :
    (l.map fun x => x / t * 100).sum = l.sum / t * 100 := by
  induction l with
  | nil => simp
  | cons a r ih =>
    simp only [List.map_cons, List.sum_cons, ih]
    ring

/-- Renormalising the second components of a keyed score list is linear
in their sum. -/
lemma map_snd_renorm (l : List (String × ℚ)) (t : ℚ) :
    ((l.map fun p => (p.1, p.2 / t * 100)).map Prod.snd).sum =
      (l.map Prod.snd).sum / t * 100 := by
  induction l with
  | nil => simp
  | cons a r ih =>
    simp only [List.map_cons, List.sum_cons, ih]
    ring

/-- Claim C1 (code bug witnessed on a concrete input): a contour with
circularity at least 0.7 whose crop has edge density at most 0.05 (so
the crack flag is NOT set) is still graded with shape score 0.8 rather
than 1.0, because extract_all_features stores the crack flag as the
string str(False), and every nonempty string is truthy in the grading
check, so the 0.2 crack penalty is always applied. -/
theorem crack_flag_truthiness_eval :
    7/10 ≤ (extract_all_features (314159/100000) 100 40 (List.replicate 4 0)).circularity ∧
    edge_density (List.replicate 4 0) ≤ 1/20 ∧
    (extract_all_features (314159/100000) 100 40 (List.replicate 4 0)).has_cracks =
      .pstr "False" ∧
    evaluate_shape_quality
      (extract_all_features (314159/100000) 100 40 (List.replicate 4 0)).toDict = 4/5 ∧
    (4:ℚ)/5 ≠ 1 := by
  refine ⟨?_, ?_, ?_, ?_, by norm_num⟩
  · unfold extract_all_features circularity
    norm_num
  · unfold edge_density
    norm_num
  · unfold extract_all_features edge_density
    norm_num
  · unfold extract_all_features RawFeatures.toDict circularity edge_density
    unfold evaluate_shape_quality shape_quality_unclamped truthy
    norm_num
    rw [if_neg (by decide)]
    norm_num

/-- Claim C2, counterexample: at base score 0.857 with a clean round
bean (shape score 1.0) the unrounded fusion is 0.8999, so the stored
final_score rounds to 0.9, whose first clearing category is Specialty,
yet the code assigns Premium because it categorises the unrounded
value. -/
theorem fusion_category_rounding_counterexample :
    (calculate_final_quality (857/1000) "Light" ⟨some (4/5), none⟩).final_score = 9/10 ∧
    (calculate_final_quality (857/1000) "Light" ⟨some (4/5), none⟩).quality_category =
      "Premium" ∧
    determine_quality_category (9/10) = "Specialty" ∧
    ("Premium" : String) ≠ "Specialty" := by
  have hs : evaluate_shape_quality ⟨some (4/5), none⟩ = 1 := by
    apply shape_quality_top <;> norm_num [truthy]
  refine ⟨?_, ?_, determine_at_nine_tenths, by decide⟩
  · show round3 (857/1000 * (7/10) + evaluate_shape_quality ⟨some (4/5), none⟩ * (3/10)) = 9/10
    rw [hs]
    unfold round3 roundHalfEven
    norm_num
  · show determine_quality_category
        (857/1000 * (7/10) + evaluate_shape_quality ⟨some (4/5), none⟩ * (3/10)) = "Premium"
    rw [hs, determine_quality_category_eq]
    norm_num

/-- Claim C2, amended: for every base score in the unit interval the
stored final_score equals round(0.7 base + 0.3 shape, 3) exactly, while
the quality category is the first category of the fixed ordered list
whose threshold is at most the UNROUNDED fused score; a score of
exactly 0.9 is assigned Specialty, not Premium. -/
theorem fusion_category_unrounded (base_score : ℚ) (source_category : String)
    (features : FeatureDict) (h0 : 0 ≤ base_score) (h1 : base_score ≤ 1) :
    (calculate_final_quality base_score source_category features).final_score =
      round3 (7/10 * base_score + 3/10 * evaluate_shape_quality features) ∧
    (calculate_final_quality base_score source_category features).quality_category =
      determine_quality_category
        (7/10 * base_score + 3/10 * evaluate_shape_quality features) ∧
    determine_quality_category (9/10) = "Specialty" := by
  refine ⟨?_, ?_, determine_at_nine_tenths⟩
  · show round3 (base_score * (7/10) + evaluate_shape_quality features * (3/10)) = _
    exact congrArg round3 (by ring)
  · show determine_quality_category
        (base_score * (7/10) + evaluate_shape_quality features * (3/10)) = _
    exact congrArg determine_quality_category (by ring)

/-- Witness for the amended claim C2 at the concrete base score 0.5. -/
theorem fusion_category_unrounded_witness :
    (0:ℚ) ≤ 1/2 ∧ (1:ℚ)/2 ≤ 1 ∧
    ((calculate_final_quality (1/2) "Light" ⟨none, none⟩).final_score =
      round3 (7/10 * (1/2) + 3/10 * evaluate_shape_quality ⟨none, none⟩) ∧
    (calculate_final_quality (1/2) "Light" ⟨none, none⟩).quality_category =
      determine_quality_category
        (7/10 * (1/2) + 3/10 * evaluate_shape_quality ⟨none, none⟩) ∧
    determine_quality_category (9/10) = "Specialty") :=
  ⟨by norm_num, by norm_num,
    fusion_category_unrounded (1/2) "Light" ⟨none, none⟩ (by norm_num) (by norm_num)⟩

/-- Claim C3: on a non-empty lot whose assessments carry one of the
five fixed categories, the report lists all five categories in order,
each paired with the number of beans of that category (zero when none),
the average is the arithmetic mean of the final scores rounded to three
decimals, the lot category is the threshold walk applied to the mean,
and the five counts sum to the number of beans. -/
theorem batch_report_closed_form (beans : List BeanAssessment) (hne : beans ≠ [])
    (hcat : ∀ b ∈ beans, b.quality_category ∈ QUALITY_CATEGORIES) :
    generate_batch_report beans =
      .report beans.length
        (QUALITY_CATEGORIES.map
          fun c => (c, beans.countP (fun b => decide (c = b.quality_category))))
        (round3 ((beans.map BeanAssessment.final_score).sum / (beans.length : ℚ)))
        (determine_quality_category
          ((beans.map BeanAssessment.final_score).sum / (beans.length : ℚ))) ∧
    ((QUALITY_CATEGORIES.map
        fun c => (c, beans.countP (fun b => decide (c = b.quality_category)))).map
      Prod.snd).sum = beans.length := by
  constructor
  · unfold generate_batch_report
    rw [if_neg (by simpa using hne)]
    have h0 := foldl_category_count beans (fun _ => 0)
    simp only [zero_add] at h0
    rw [h0]
  · exact histogram_sum beans hcat

/-- Witness for claim C3 on a concrete three-bean lot. -/
theorem batch_report_closed_form_witness :
    ([⟨"Specialty", 19/20⟩, ⟨"Premium", 17/20⟩, ⟨"A", 13/20⟩] : List BeanAssessment) ≠ [] ∧
    (∀ b ∈ ([⟨"Specialty", 19/20⟩, ⟨"Premium", 17/20⟩, ⟨"A", 13/20⟩] : List BeanAssessment),
      b.quality_category ∈ QUALITY_CATEGORIES) ∧
    (generate_batch_report [⟨"Specialty", 19/20⟩, ⟨"Premium", 17/20⟩, ⟨"A", 13/20⟩] =
      .report ([⟨"Specialty", 19/20⟩, ⟨"Premium", 17/20⟩, ⟨"A", 13/20⟩] :
          List BeanAssessment).length
        (QUALITY_CATEGORIES.map
          fun c => (c, ([⟨"Specialty", 19/20⟩, ⟨"Premium", 17/20⟩, ⟨"A", 13/20⟩] :
            List BeanAssessment).countP (fun b => decide (c = b.quality_category))))
        (round3 ((([⟨"Specialty", 19/20⟩, ⟨"Premium", 17/20⟩, ⟨"A", 13/20⟩] :
            List BeanAssessment).map BeanAssessment.final_score).sum / 3))
        (determine_quality_category
          ((([⟨"Specialty", 19/20⟩, ⟨"Premium", 17/20⟩, ⟨"A", 13/20⟩] :
            List BeanAssessment).map BeanAssessment.final_score).sum / 3)) ∧
    ((QUALITY_CATEGORIES.map
        fun c => (c, ([⟨"Specialty", 19/20⟩, ⟨"Premium", 17/20⟩, ⟨"A", 13/20⟩] :
          List BeanAssessment).countP (fun b => decide (c = b.quality_category)))).map
      Prod.snd).sum = 3) :=
  ⟨by simp, by simp [QUALITY_CATEGORIES],
    batch_report_closed_form [⟨"Specialty", 19/20⟩, ⟨"Premium", 17/20⟩, ⟨"A", 13/20⟩]
      (by simp) (by simp [QUALITY_CATEGORIES])⟩

/-- Claim C5: aggregating an empty lot yields the explicit error
dictionary (no exception is modelled: the function is total), every
non-empty lot yields a report value, and the error value is distinct
from every report value. -/
theorem batch_report_empty_error (beans : List BeanAssessment) (hne : beans ≠ []) :
    generate_batch_report [] = .error "No se analizaron granos" ∧
    (∃ t d a l, generate_batch_report beans = .report t d a l) ∧
    (∀ msg t d a l, BatchReport.error msg ≠ BatchReport.report t d a l) := by
  refine ⟨rfl, ?_, ?_⟩
  · unfold generate_batch_report
    rw [if_neg (by simpa using hne)]
    exact ⟨_, _, _, _, rfl⟩
  · intro msg t d a l h
    exact BatchReport.noConfusion h

/-- Witness for claim C5 on a concrete one-bean lot. -/
theorem batch_report_empty_error_witness :
    ([⟨"C", 0⟩] : List BeanAssessment) ≠ [] ∧
    (generate_batch_report [] = .error "No se analizaron granos" ∧
    (∃ t d a l, generate_batch_report [⟨"C", 0⟩] = .report t d a l) ∧
    (∀ msg t d a l, BatchReport.error msg ≠ BatchReport.report t d a l)) :=
  ⟨by simp, batch_report_empty_error [⟨"C", 0⟩] (by simp)⟩

/-- Claim C6: the colour predictor returns the absent value (none) both
when no model is loaded and when inference throws; the embedding is a
total function, so no exception escapes. -/
theorem predict_absent_on_failure (color_classes : List String)
    (raw_predictions : Except String (List ℚ)) (msg : String) :
    predict_color_percentages none color_classes raw_predictions = none ∧
    predict_color_percentages (some ()) color_classes (.error msg) = none :=
  ⟨rfl, rfl⟩

/-- Claim C7: the category assignment is monotone: a larger final score
never receives a lower category in the fixed ordering
Specialty > Premium > A > B > C. -/
theorem category_assignment_monotone (s1 s2 : ℚ) (h : s1 ≤ s2) :
    category_rank (determine_quality_category s1) ≤
      category_rank (determine_quality_category s2) := by
  rw [determine_quality_category_eq, determine_quality_category_eq]
  split_ifs <;> simp [category_rank] <;> linarith

/-- Witness for claim C7 at the concrete scores 0.5 and 0.95. -/
theorem category_assignment_monotone_witness :
    (1:ℚ)/2 ≤ 19/20 ∧
    category_rank (determine_quality_category (1/2)) ≤
      category_rank (determine_quality_category (19/20)) :=
  ⟨by norm_num, category_assignment_monotone (1/2) (19/20) (by norm_num)⟩

/-- Claim C4, counterexample: the raw score 0.0001 is nonzero, yet it
rounds to 0, the rounded total is 0, no renormalisation happens, and
the returned percentages sum to 0, not 100 (and not within 1e-6 of
100). -/
theorem color_percentages_rounded_counterexample :
    ((1:ℚ)/10000 ≠ 0) ∧
    predict_color_percentages (some ()) CNN_COLOR_CLASSES (.ok [1/10000, 0, 0, 0]) =
      some [("Dark", 0), ("Green", 0), ("Light", 0), ("Medium", 0)] ∧
    ¬ |(([("Dark", (0:ℚ)), ("Green", 0), ("Light", 0), ("Medium", 0)].map Prod.snd).sum)
        - 100| ≤ 1/1000000 := by
  refine ⟨by norm_num, ?_, by norm_num [List.map, List.sum]⟩
  unfold predict_color_percentages CNN_COLOR_CLASSES
  have h1 : round3 ((10000:ℚ)⁻¹) = 0 := by unfold round3 roundHalfEven; norm_num
  have h2 : round3 0 = 0 := by unfold round3 roundHalfEven; norm_num
  simp [h1, h2]

/-- Claim C4, amended: whenever inference succeeds with enough raw
scores and the ROUNDED scores have a positive sum, the returned
percentages sum to exactly 100; when the rounded sum is not positive
(in particular when every raw score is zero) the rounded values are
returned unchanged. -/
theorem color_percentages_renormalised_sum (color_classes : List String) (raw : List ℚ)
    (hlen : ¬ raw.length < color_classes.length)
    (hpos : 0 < (((color_classes.zip raw).map fun p => (p.1, round3 p.2)).map Prod.snd).sum) :
    ∃ l, predict_color_percentages (some ()) color_classes (.ok raw) = some l ∧
      (l.map Prod.snd).sum = 100 := by
  simp only [predict_color_percentages]
  rw [if_neg hlen]
  rw [if_pos hpos]
  refine ⟨_, rfl, ?_⟩
  rw [map_snd_renorm, div_self (ne_of_gt hpos)]
  norm_num

/-- Witness for the amended claim C4 at the concrete raw score vector
(1, 0, 0, 0). -/
theorem color_percentages_renormalised_sum_witness :
    (¬ ([(1:ℚ), 0, 0, 0] : List ℚ).length < CNN_COLOR_CLASSES.length) ∧
    (0 < (((CNN_COLOR_CLASSES.zip [(1:ℚ), 0, 0, 0]).map
      fun p => (p.1, round3 p.2)).map Prod.snd).sum) ∧
    (∃ l, predict_color_percentages (some ()) CNN_COLOR_CLASSES (.ok [1, 0, 0, 0]) = some l ∧
      (l.map Prod.snd).sum = 100) :=
  ⟨by decide, by norm_num [CNN_COLOR_CLASSES, round3, roundHalfEven],
    color_percentages_renormalised_sum CNN_COLOR_CLASSES [1, 0, 0, 0] (by decide)
      (by norm_num [CNN_COLOR_CLASSES, round3, roundHalfEven])⟩

/-- Claim C8: circularity is 0 at perimeter 0 and equals the geometric
formula at positive perimeter, so the guarded definition never divides
by zero, and the edge density of any 8-bit edge map is a ratio in
[0, 1]. -/
theorem circularity_edge_density_bounds (pi area perimeter : ℚ) (edges : List ℕ)
    (hp : 0 < perimeter) (he : ∀ e ∈ edges, e ≤ 255) :
    circularity pi area 0 = 0 ∧
    circularity pi area perimeter = 4 * pi * area / perimeter ^ 2 ∧
    0 ≤ edge_density edges ∧ edge_density edges ≤ 1 := by
  refine ⟨by simp [circularity], by simp [circularity, hp], ?_, ?_⟩
  · unfold edge_density
    split_ifs with h
    · apply div_nonneg (by positivity)
      have hl : (0:ℚ) < edges.length := by exact_mod_cast h
      positivity
    · norm_num
  · unfold edge_density
    split_ifs with h
    · have hl : (0:ℚ) < edges.length := by exact_mod_cast h
      rw [div_le_one (by positivity)]
      have hsum : edges.sum ≤ edges.length * 255 := by
        have hn := List.sum_le_card_nsmul edges 255 he
        simpa [smul_eq_mul] using hn
      calc (edges.sum : ℚ) ≤ (edges.length : ℚ) * 255 := by exact_mod_cast hsum
        _ = 255 * edges.length := by ring
    · norm_num

/-- Witness for claim C8 at a concrete contour and edge map. -/
theorem circularity_edge_density_bounds_witness :
    (0:ℚ) < 4 ∧ (∀ e ∈ ([255, 0] : List ℕ), e ≤ 255) ∧
    (circularity 3 2 0 = 0 ∧
    circularity 3 2 4 = 4 * 3 * 2 / 4 ^ 2 ∧
    0 ≤ edge_density [255, 0] ∧ edge_density [255, 0] ≤ 1) :=
  ⟨by norm_num, by decide,
    circularity_edge_density_bounds 3 2 4 [255, 0] (by norm_num) (by decide)⟩

/-- Claim C9: segmentation keeps a contour exactly when its area is
strictly greater than 500; a contour of area exactly 500 is discarded
and one of area 501 is kept. -/
theorem segment_beans_area_filter :
    (∀ (contours : List Contour) (c : Contour),
      c ∈ segment_beans contours ↔ c ∈ contours ∧ 500 < c.area) ∧
    Contour.mk 500 ∉ segment_beans [Contour.mk 500] ∧
    Contour.mk 501 ∈ segment_beans [Contour.mk 501] := by
  refine ⟨?_, ?_, ?_⟩
  · intro contours c
    simp [segment_beans, List.mem_filter]
  · norm_num [segment_beans, List.filter]
  · norm_num [segment_beans, List.filter]

/-- Claim C10: over every features dictionary, including those with
missing keys, the shape score is one of 0.5, 0.7, 0.8, 1.0; it is
always at least 0.5, so the clamp max(0, score) never changes the
result. -/
theorem shape_score_value_set (features : FeatureDict) :
    (evaluate_shape_quality features = 1/2 ∨ evaluate_shape_quality features = 7/10 ∨
      evaluate_shape_quality features = 4/5 ∨ evaluate_shape_quality features = 1) ∧
    1/2 ≤ evaluate_shape_quality features ∧
    evaluate_shape_quality features = shape_quality_unclamped features := by
  unfold evaluate_shape_quality shape_quality_unclamped
  split_ifs <;> norm_num

end GrainGrading
